import Mathlib

/-!
Shallow embedding of the carbon analytics engine (`carbon_analytics.py`).

The SQLite tables are modelled as lists of row structures; dates are
modelled as integers (ISO date strings compare lexicographically, which
coincides with the chronological order that the integer model uses).
Emission and usage values are modelled as rationals; the float division
`(recent - previous) / previous` performed by numpy is modelled by the
`FV` type, which distinguishes finite values from the infinities and NaN
that numpy produces on a zero denominator.  Python's `round(x, 2)` is
modelled as rounding half up to two decimals (the tie-breaking mode is
irrelevant to every value considered here).  The calendar features that
pandas derives from a date (`dayofweek`, `month`, `isocalendar().week`)
are abstracted as an explicit `Calendar` record of functions.
-/

/-- A row of the `home_energy` table. -/
structure HomeEnergyRow where
  user_id : Nat
  consumption_date : Int
  electricity_usage : ℚ
  gas_usage : ℚ
  water_usage : ℚ
  heating_usage : ℚ
  carbon_emissions : ℚ
deriving DecidableEq

/-- A row of the `transportation` table (only the columns the engine reads). -/
structure TransportationRow where
  user_id : Nat
  activity_date : Int
  carbon_emissions : ℚ
deriving DecidableEq

/-- A row of the `daily_activities` table (only the columns the engine reads). -/
structure DailyActivityRow where
  user_id : Nat
  category_id : Nat
  quantity : ℚ
  carbon_emissions : ℚ
deriving DecidableEq

/-- A row of the `activity_categories` table (only the columns the engine reads). -/
structure ActivityCategoryRow where
  category_id : Nat
  category_name : String
deriving DecidableEq

/-- The calendar features pandas derives from a date, left abstract. -/
structure Calendar where
  dayOfWeek : Int → Nat
  monthOf : Int → Nat
  weekOfYear : Int → Nat

/-- Stable insertion into a list that is sorted ascending by `key`:
an element already in the list stays in front of the inserted one when
the keys are equal. -/
def insertK {α β : Type} [LinearOrder β] (key : α → β) (r : α) : List α → List α
  | [] => [r]
  | x :: xs => if key x ≤ key r then x :: insertK key r xs else r :: x :: xs

/-- Stable insertion sort, ascending by `key` (models `ORDER BY`). -/
def sortK {α β : Type} [LinearOrder β] (key : α → β) : List α → List α
  | [] => []
  | x :: xs => insertK key x (sortK key xs)

/-- Mean of a list of rationals (callers guard against the empty list). -/
def mean (l : List ℚ) : ℚ := l.sum / l.length

/-- Mean with the empty case made explicit: pandas returns NaN on an empty
series, and every comparison against NaN is false; `none` models that NaN. -/
def meanOpt (l : List ℚ) : Option ℚ := if l = [] then none else some (mean l)

/-- `c < the value`, false on `none` (NaN comparisons are false in Python). -/
def gtOpt (c : ℚ) : Option ℚ → Bool
  | none => false
  | some q => decide (c < q)

/-- Python's `round(q, 2)`: round to two decimals. -/
def round2 (q : ℚ) : ℚ := (Rat.floor (q * 100 + 1/2) : ℚ) / 100

/-- A numpy double that is either finite or one of the non-finite values
produced by dividing by a zero mean. -/
inductive FV where
  | fin (q : ℚ)
  | inf
  | ninf
  | nan
deriving DecidableEq

/-- `round(x, 2)` on a possibly non-finite value (infinities and NaN are
returned unchanged by Python's `round`). -/
def roundFV : FV → FV
  | .fin q => .fin (round2 q)
  | v => v

/-- `x > 0` on a possibly non-finite value (`inf > 0` is true, `nan > 0`
and `-inf > 0` are false). -/
def gtZeroFV : FV → Bool
  | .fin q => decide (0 < q)
  | .inf => true
  | .ninf => false
  | .nan => false

/-- Mean of a pandas series: NaN when the series is empty. -/
def meanFV (l : List ℚ) : FV := if l = [] then FV.nan else FV.fin (mean l)

/-- The float computation `((mean recL - mean prevL) / mean prevL) * 100`,
with the IEEE outcomes on an empty half (NaN mean) or a zero denominator. -/
def changePercentFV (recL prevL : List ℚ) : FV :=
  if prevL = [] ∨ recL = [] then FV.nan
  else if mean prevL = 0 then
    if mean recL = 0 then FV.nan
    else if 0 < mean recL then FV.inf
    else FV.ninf
  else FV.fin ((mean recL - mean prevL) / mean prevL * 100)

/-- The `home_energy` rows selected by `get_user_carbon_timeline`:
the user's rows with `consumption_date >= date('now', '-days days')`. -/
def timelineRows (hdb : List HomeEnergyRow) (today : Int) (user : Nat)
    (days : Nat) : List HomeEnergyRow :=
  hdb.filter (fun r => decide (r.user_id = user ∧ today - (days : Int) ≤ r.consumption_date))

/-- `get_user_carbon_timeline`: group the selected rows by date, sum the
emissions per date, order ascending by date. -/
def get_user_carbon_timeline (hdb : List HomeEnergyRow) (today : Int) (user : Nat)
    (days : Nat) : List (Int × ℚ) :=
  let rows := timelineRows hdb today user days
  let dates := (rows.map (fun r => r.consumption_date)).dedup
  (sortK id dates).map (fun d =>
    (d, ((rows.filter (fun r => decide (r.consumption_date = d))).map
          (fun r => r.carbon_emissions)).sum))

/-- The aggregated-transportation subquery joined by `(user, date)`:
`COALESCE(SUM(carbon_emissions), 0)` over the user's transportation rows
of the given date (the sum of an empty list is the coalesced 0). -/
def transpSum (tdb : List TransportationRow) (user : Nat) (d : Int) : ℚ :=
  ((tdb.filter (fun t => decide (t.user_id = user ∧ t.activity_date = d))).map
    (fun t => t.carbon_emissions)).sum

/-- One row of the data frame built by `analyze_carbon_patterns`. -/
structure PatternRow where
  consumption_date : Int
  electricity_usage : ℚ
  gas_usage : ℚ
  water_usage : ℚ
  heating_usage : ℚ
  home_emissions : ℚ
  transport_emissions : ℚ
  total_emissions : ℚ
  day_of_week : Nat
  month : Nat
  week_of_year : Nat
deriving DecidableEq

/-- `analyze_carbon_patterns`: left-join the user's home-energy rows to the
per-day transportation sums, derive `total_emissions` and the calendar
features, order ascending by date. -/
def analyze_carbon_patterns (cal : Calendar) (hdb : List HomeEnergyRow)
    (tdb : List TransportationRow) (user : Nat) : List PatternRow :=
  (sortK (fun r => r.consumption_date)
      (hdb.filter (fun r => decide (r.user_id = user)))).map
    (fun r =>
      { consumption_date := r.consumption_date
        electricity_usage := r.electricity_usage
        gas_usage := r.gas_usage
        water_usage := r.water_usage
        heating_usage := r.heating_usage
        home_emissions := r.carbon_emissions
        transport_emissions := transpSum tdb user r.consumption_date
        total_emissions := r.carbon_emissions + transpSum tdb user r.consumption_date
        day_of_week := cal.dayOfWeek r.consumption_date
        month := cal.monthOf r.consumption_date
        week_of_year := cal.weekOfYear r.consumption_date })

/-- The inner join `daily_activities JOIN activity_categories` restricted to
the user, projected to `(category_name, quantity, carbon_emissions)`. -/
def ecoJoined (da : List DailyActivityRow) (ac : List ActivityCategoryRow)
    (user : Nat) : List (String × ℚ × ℚ) :=
  (da.filter (fun d => decide (d.user_id = user))).flatMap
    (fun d => (ac.filter (fun c => decide (c.category_id = d.category_id))).map
      (fun c => (c.category_name, d.quantity, d.carbon_emissions)))

/-- One row of the result of `get_eco_heavy_activities`. -/
structure EcoEntry where
  category_name : String
  avg_quantity : ℚ
  avg_carbon : ℚ
  total_carbon : ℚ
  frequency : Nat
deriving DecidableEq

/-- `get_eco_heavy_activities`: group the joined rows by category name,
compute the per-category aggregates, order descending by total carbon
(`sortK` on the negated key), truncate to `top_n`. -/
def get_eco_heavy_activities (da : List DailyActivityRow)
    (ac : List ActivityCategoryRow) (user : Nat) (top_n : Nat) : List EcoEntry :=
  let j := ecoJoined da ac user
  let names := (j.map (fun x => x.1)).dedup
  let entries := names.map (fun n =>
    let g := j.filter (fun x => decide (x.1 = n))
    { category_name := n
      avg_quantity := mean (g.map (fun x => x.2.1))
      avg_carbon := mean (g.map (fun x => x.2.2))
      total_carbon := (g.map (fun x => x.2.2)).sum
      frequency := g.length })
  (sortK (fun e => -e.total_carbon) entries).take top_n

/-- One suggestion dictionary produced by `generate_optimization_suggestions`;
keys absent from a given dictionary are modelled as `none`. -/
structure Suggestion where
  category : String
  current_avg : Option ℚ
  peak_months : Option (List Nat)
  suggestion : String
  potential_reduction : String
deriving DecidableEq

/-- `monthly_avg = patterns_df.groupby('month')['total_emissions'].mean()`
followed by `nlargest(3).index.tolist()`: group keys ascending (pandas
sorts groupby keys), then the three months of largest mean, descending,
ties resolved toward the smaller month. -/
def monthlyPeaks (ps : List PatternRow) : List Nat :=
  let months := sortK id ((ps.map (fun p => p.month)).dedup)
  let pairs := months.map (fun m =>
    (m, mean ((ps.filter (fun p => decide (p.month = m))).map
          (fun p => p.total_emissions))))
  ((sortK (fun x => -x.2) pairs).take 3).map (fun x => x.1)

/-- `generate_optimization_suggestions`: threshold rules on the pattern
means, then the unconditional seasonal suggestion.  The eco-heavy query is
issued by the source but its result is never used; it does not affect the
output and is therefore not bound here. -/
def generate_optimization_suggestions (cal : Calendar) (hdb : List HomeEnergyRow)
    (tdb : List TransportationRow) (user : Nat) : List Suggestion :=
  let ps := analyze_carbon_patterns cal hdb tdb user
  let avgE := meanOpt (ps.map (fun p => p.electricity_usage))
  let avgT := meanOpt (ps.map (fun p => p.transport_emissions))
  (if gtOpt 30 avgE then
    [{ category := "Electricity"
       current_avg := avgE.map round2
       peak_months := none
       suggestion := "Consider switching to LED bulbs and unplugging devices when not in use"
       potential_reduction := "15-20%" }]
   else [])
  ++ (if gtOpt 2 avgT then
    [{ category := "Transportation"
       current_avg := avgT.map round2
       peak_months := none
       suggestion := "Try using public transport or cycling for short trips"
       potential_reduction := "30-40%" }]
   else [])
  ++ [{ category := "Seasonal Optimization"
        current_avg := none
        peak_months := some (monthlyPeaks ps)
        suggestion := "Focus on energy efficiency during high-consumption months"
        potential_reduction := "10-15%" }]

/-- The result dictionary of `calculate_carbon_trends`. -/
structure TrendResult where
  recent_avg : FV
  previous_avg : FV
  change_percent : FV
  trend : String
deriving DecidableEq

/-- The `total_daily_carbon` column fetched by `calculate_carbon_trends`:
the user's home rows of the last `2 * period_days` days, ordered by date,
each home emission plus the coalesced same-day transportation sum. -/
def trendTotals (hdb : List HomeEnergyRow) (tdb : List TransportationRow)
    (today : Int) (user : Nat) (period_days : Nat) : List ℚ :=
  (sortK (fun r => r.consumption_date)
      (hdb.filter (fun r =>
        decide (r.user_id = user ∧ today - (2 * (period_days : Int)) ≤ r.consumption_date)))).map
    (fun r => r.carbon_emissions + transpSum tdb user r.consumption_date)

/-- `midpoint = len(df) // 2`; previous period `df.iloc[:midpoint]`,
recent period `df.iloc[midpoint:]`. -/
def trendSplit (l : List ℚ) : List ℚ × List ℚ :=
  (l.take (l.length / 2), l.drop (l.length / 2))

/-- `calculate_carbon_trends`: `None` when fewer than `period_days` rows,
otherwise the rounded means of the positional halves, the percent change,
and the `increasing` / `decreasing` label decided on the unrounded value. -/
def calculate_carbon_trends (hdb : List HomeEnergyRow) (tdb : List TransportationRow)
    (today : Int) (user : Nat) (period_days : Nat) : Option TrendResult :=
  let totals := trendTotals hdb tdb today user period_days
  if totals.length < period_days then none
  else
    let prevL := (trendSplit totals).1
    let recL := (trendSplit totals).2
    let cp := changePercentFV recL prevL
    some { recent_avg := roundFV (meanFV recL)
           previous_avg := roundFV (meanFV prevL)
           change_percent := roundFV cp
           trend := if gtZeroFV cp then "increasing" else "decreasing" }

/-- Helper for building `home_energy` rows in concrete instances. -/
def mkHome (u : Nat) (d : Int) (e c : ℚ) : HomeEnergyRow :=
  ⟨u, d, e, 0, 0, 0, c⟩

/-- A concrete calendar for concrete instances. -/
def cal0 : Calendar :=
  ⟨fun _ => 0, fun _ => 1, fun _ => 0⟩

/-! ### Helper lemmas about the sorting and grouping machinery -/

theorem perm_insertK {α β : Type} [LinearOrder β] (key : α → β) (r : α) (l : List α) :
    List.Perm (insertK key r l) (r :: l) := by
  induction l with
  | nil => rfl
  | cons x xs ih =>
    unfold insertK
    split
    · exact List.Perm.trans (List.Perm.cons x ih) (List.Perm.swap r x xs)
    · rfl

theorem mem_insertK {α β : Type} [LinearOrder β] (key : α → β) (r a : α) (l : List α) :
    a ∈ insertK key r l ↔ a = r ∨ a ∈ l := by
  rw [(perm_insertK key r l).mem_iff]
  simp

theorem perm_sortK {α β : Type} [LinearOrder β] (key : α → β) (l : List α) :
    List.Perm (sortK key l) l := by
  induction l with
  | nil => rfl
  | cons x xs ih => exact (perm_insertK key x (sortK key xs)).trans (List.Perm.cons x ih)

theorem mem_sortK {α β : Type} [LinearOrder β] (key : α → β) (a : α) (l : List α) :
    a ∈ sortK key l ↔ a ∈ l :=
  (perm_sortK key l).mem_iff

theorem pairwise_insertK {α β : Type} [LinearOrder β] (key : α → β) (r : α) (l : List α)
    (h : l.Pairwise (fun a b => key a ≤ key b)) :
    (insertK key r l).Pairwise (fun a b => key a ≤ key b) := by
  induction l with
  | nil => simp [insertK]
  | cons x xs ih =>
    rw [List.pairwise_cons] at h
    unfold insertK
    split
    case isTrue hle =>
      rw [List.pairwise_cons]
      refine ⟨fun b hb => ?_, ih h.2⟩
      rcases (mem_insertK key r b xs).1 hb with rfl | hbxs
      · exact hle
      · exact h.1 b hbxs
    case isFalse hgt =>
      have hrx : key r ≤ key x := le_of_not_le hgt
      rw [List.pairwise_cons]
      refine ⟨fun b hb => ?_, List.pairwise_cons.2 ⟨h.1, h.2⟩⟩
      rcases List.mem_cons.1 hb with rfl | hbxs
      · exact hrx
      · exact hrx.trans (h.1 b hbxs)

theorem pairwise_sortK {α β : Type} [LinearOrder β] (key : α → β) (l : List α) :
    (sortK key l).Pairwise (fun a b => key a ≤ key b) := by
  induction l with
  | nil => simp [sortK]
  | cons x xs ih => exact pairwise_insertK key x (sortK key xs) ih

theorem nodup_sortK {α β : Type} [LinearOrder β] (key : α → β) (l : List α)
    (h : l.Nodup) : (sortK key l).Nodup :=
  (perm_sortK key l).symm.nodup h

theorem sum_map_filter_not {α : Type} (l : List α) (p : α → Bool) (f : α → ℚ) :
    ((l.filter p).map f).sum + ((l.filter (fun a => !p a)).map f).sum = (l.map f).sum := by
  induction l with
  | nil => simp
  | cons x t ih => cases h : p x <;> simp [List.filter_cons, h] <;> linarith

theorem grouped_sum {α β : Type} [DecidableEq β] (keyf : α → β) (f : α → ℚ) :
    ∀ (ds : List β) (l : List α), ds.Nodup → (∀ r ∈ l, keyf r ∈ ds) →
      (ds.map (fun d => ((l.filter (fun r => decide (keyf r = d))).map f).sum)).sum
        = (l.map f).sum := by
  intro ds
  induction ds with
  | nil =>
    intro l _ hall
    have hl : l = [] := by
      cases l with
      | nil => rfl
      | cons a t => exact absurd (hall a (List.mem_cons_self a t)) (by simp)
    subst hl
    simp
  | cons d ds ih =>
    intro l hnd hall
    have hd : d ∉ ds := (List.nodup_cons.1 hnd).1
    have hnd2 : ds.Nodup := (List.nodup_cons.1 hnd).2
    rw [List.map_cons, List.sum_cons]
    have hmap : ds.map (fun e => ((l.filter (fun r => decide (keyf r = e))).map f).sum)
        = ds.map (fun e =>
            (((l.filter (fun r => !(decide (keyf r = d)))).filter
                (fun r => decide (keyf r = e))).map f).sum) := by
      refine List.map_congr_left fun e he => ?_
      have hne : e ≠ d := fun hx => hd (hx ▸ he)
      rw [List.filter_filter]
      have hfe : List.filter (fun a => decide (keyf a = e) && !decide (keyf a = d)) l
          = List.filter (fun r => decide (keyf r = e)) l := by
        refine List.filter_congr fun r _ => ?_
        by_cases hr : keyf r = e
        · have hnd3 : keyf r ≠ d := fun hx => hne (hr.symm.trans hx)
          simp [hr, hnd3, hne]
        · simp [hr]
      rw [hfe]
    rw [hmap, ih (l.filter (fun r => !(decide (keyf r = d)))) hnd2 ?_]
    · exact sum_map_filter_not l (fun r => decide (keyf r = d)) f
    · intro r hr
      rw [List.mem_filter] at hr
      rcases List.mem_cons.1 (hall r hr.1) with hx | hx
      · exact absurd hx (by simpa using hr.2)
      · exact hx

theorem meanOpt_of_ne_nil (l : List ℚ) (h : l ≠ []) : meanOpt l = some (mean l) :=
  if_neg h

/-! ### Claim theorems -/

/-- C1: the source never tests `previous_period == 0`.  On a concrete input
with at least `period_days` rows whose previous half is all zeros (home
emissions 0, 0, 5, 5; period 2), `calculate_carbon_trends` performs the
division anyway and returns a numeric dictionary whose `change_percent` is
the IEEE positive infinity and whose label is `increasing` — not a distinct
undefined-trend outcome as the specification requires. -/
theorem trend_zero_baseline_returns_infinity :
    calculate_carbon_trends
        [mkHome 1 1 0 0, mkHome 1 2 0 0, mkHome 1 3 0 5, mkHome 1 4 0 5] [] 4 1 2
      = some ⟨FV.fin 5, FV.fin 0, FV.inf, "increasing"⟩ := by
  with_unfolding_all decide

/-- C2: when the pattern analysis yields no rows (here: an empty store),
`generate_optimization_suggestions` neither returns an empty list nor an
insufficient-data marker: the NaN means make both threshold comparisons
false, and the unconditional seasonal suggestion (with an empty peak-month
list) is still emitted, so the result is that single generic suggestion. -/
theorem suggestions_empty_patterns_seasonal_only :
    generate_optimization_suggestions cal0 [] [] 1
      = [{ category := "Seasonal Optimization"
           current_avg := none
           peak_months := some []
           suggestion := "Focus on energy efficiency during high-consumption months"
           potential_reduction := "10-15%" }] := by
  with_unfolding_all decide

/-- C6: whenever fewer than `period_days` combined-emission rows are fetched
from the `2 × period` window, `calculate_carbon_trends` returns the
insufficient-data outcome `none` instead of computing a trend. -/
theorem trend_insufficient_data_returns_none (hdb : List HomeEnergyRow)
    (tdb : List TransportationRow) (today : Int) (user : Nat) (period_days : Nat)
    (h : (trendTotals hdb tdb today user period_days).length < period_days) :
    calculate_carbon_trends hdb tdb today user period_days = none := by
  simp only [calculate_carbon_trends]
  rw [if_pos h]

/-- C6 witness: a 30-day period with only 10 rows available returns `none`. -/
theorem trend_insufficient_data_returns_none_witness :
    (trendTotals
        [mkHome 1 1 0 1, mkHome 1 2 0 1, mkHome 1 3 0 1, mkHome 1 4 0 1, mkHome 1 5 0 1,
         mkHome 1 6 0 1, mkHome 1 7 0 1, mkHome 1 8 0 1, mkHome 1 9 0 1, mkHome 1 10 0 1]
        [] 10 1 30).length < 30
    ∧ calculate_carbon_trends
        [mkHome 1 1 0 1, mkHome 1 2 0 1, mkHome 1 3 0 1, mkHome 1 4 0 1, mkHome 1 5 0 1,
         mkHome 1 6 0 1, mkHome 1 7 0 1, mkHome 1 8 0 1, mkHome 1 9 0 1, mkHome 1 10 0 1]
        [] 10 1 30 = none :=
  ⟨by with_unfolding_all decide,
   trend_insufficient_data_returns_none _ _ _ _ _ (by with_unfolding_all decide)⟩

/-- C4: the trend detector splits the fetched rows positionally: the
previous half is the first `⌊n / 2⌋` rows, the recent half the remaining
`n - ⌊n / 2⌋` rows (so an odd row count puts the extra row in the recent
half), and when the row-count precondition passes,
`calculate_carbon_trends` computes its means exactly on these two halves. -/
theorem trend_split_positional (l : List ℚ) (hdb : List HomeEnergyRow)
    (tdb : List TransportationRow) (today : Int) (user : Nat) (period_days : Nat) :
    ((trendSplit l).1 ++ (trendSplit l).2 = l
      ∧ (trendSplit l).1.length = l.length / 2
      ∧ (trendSplit l).2.length = l.length - l.length / 2
      ∧ (l.length % 2 = 1 → (trendSplit l).2.length = (trendSplit l).1.length + 1))
    ∧ (period_days ≤ (trendTotals hdb tdb today user period_days).length →
        calculate_carbon_trends hdb tdb today user period_days = some
          { recent_avg := roundFV (meanFV
              (trendSplit (trendTotals hdb tdb today user period_days)).2)
            previous_avg := roundFV (meanFV
              (trendSplit (trendTotals hdb tdb today user period_days)).1)
            change_percent := roundFV (changePercentFV
              (trendSplit (trendTotals hdb tdb today user period_days)).2
              (trendSplit (trendTotals hdb tdb today user period_days)).1)
            trend := if gtZeroFV (changePercentFV
                (trendSplit (trendTotals hdb tdb today user period_days)).2
                (trendSplit (trendTotals hdb tdb today user period_days)).1)
              then "increasing" else "decreasing" }) := by
  constructor
  · refine ⟨List.take_append_drop _ _, ?_, List.length_drop _ _, ?_⟩
    · show (l.take (l.length / 2)).length = l.length / 2
      rw [List.length_take]
      exact Nat.min_eq_left (Nat.div_le_self _ _)
    · intro hodd
      show (l.drop (l.length / 2)).length = (l.take (l.length / 2)).length + 1
      rw [List.length_drop, List.length_take]
      omega
  · intro h
    simp only [calculate_carbon_trends]
    rw [if_neg (Nat.not_lt.2 h)]

/-- C4 witness: on a 3-row window the recent half is one row longer than
the previous half, and a passing precondition yields the positional-halves
result. -/
theorem trend_split_positional_witness :
    (trendSplit [(1 : ℚ), 2, 3]).2.length = (trendSplit [(1 : ℚ), 2, 3]).1.length + 1
    ∧ calculate_carbon_trends [] [] 0 1 0 = some
        { recent_avg := roundFV (meanFV (trendSplit (trendTotals [] [] 0 1 0)).2)
          previous_avg := roundFV (meanFV (trendSplit (trendTotals [] [] 0 1 0)).1)
          change_percent := roundFV (changePercentFV
            (trendSplit (trendTotals [] [] 0 1 0)).2 (trendSplit (trendTotals [] [] 0 1 0)).1)
          trend := if gtZeroFV (changePercentFV
              (trendSplit (trendTotals [] [] 0 1 0)).2 (trendSplit (trendTotals [] [] 0 1 0)).1)
            then "increasing" else "decreasing" } :=
  ⟨(trend_split_positional [(1 : ℚ), 2, 3] [] [] 0 1 0).1.2.2.2 (by with_unfolding_all decide),
   (trend_split_positional [(1 : ℚ), 2, 3] [] [] 0 1 0).2 (by with_unfolding_all decide)⟩

/-- C7: the timeline is strictly ascending by date, the per-day totals sum
to exactly the sum of the matching raw emission values (no row dropped or
double-counted, multiple same-date rows summed defensively), and a user
with no records in range yields the empty sequence. -/
theorem timeline_ordered_and_sum_preserved (hdb : List HomeEnergyRow)
    (today : Int) (user : Nat) (days : Nat) :
    ((get_user_carbon_timeline hdb today user days).map Prod.fst).Pairwise (· < ·)
    ∧ ((get_user_carbon_timeline hdb today user days).map Prod.snd).sum
        = ((timelineRows hdb today user days).map (fun r => r.carbon_emissions)).sum
    ∧ (timelineRows hdb today user days = []
        → get_user_carbon_timeline hdb today user days = []) := by
  set rows := timelineRows hdb today user days with hrows
  set dates := (rows.map (fun r => r.consumption_date)).dedup with hdates
  have htl : get_user_carbon_timeline hdb today user days
      = (sortK id dates).map (fun d =>
          (d, ((rows.filter (fun r => decide (r.consumption_date = d))).map
                (fun r => r.carbon_emissions)).sum)) := rfl
  refine ⟨?_, ?_, ?_⟩
  · rw [htl, List.map_map]
    have hcomp : (Prod.fst ∘ fun d : Int =>
        (d, ((rows.filter (fun r => decide (r.consumption_date = d))).map
              (fun r => r.carbon_emissions)).sum)) = id := rfl
    rw [hcomp, List.map_id]
    have hle := pairwise_sortK id dates
    have hnd := nodup_sortK id dates (List.nodup_dedup _)
    exact (hle.and hnd).imp fun h => lt_of_le_of_ne h.1 h.2
  · rw [htl, List.map_map]
    have hcomp : (Prod.snd ∘ fun d : Int =>
        (d, ((rows.filter (fun r => decide (r.consumption_date = d))).map
              (fun r => r.carbon_emissions)).sum))
        = fun d => ((rows.filter (fun r => decide (r.consumption_date = d))).map
              (fun r => r.carbon_emissions)).sum := rfl
    rw [hcomp]
    exact grouped_sum (fun r => r.consumption_date) (fun r => r.carbon_emissions)
      (sortK id dates) rows (nodup_sortK id dates (List.nodup_dedup _))
      (fun r hr => (mem_sortK id _ dates).2
        (List.mem_dedup.2 (List.mem_map_of_mem _ hr)))
  · intro h
    have hd : dates = [] := by rw [hdates, h]; rfl
    rw [htl, hd]
    rfl

/-- C7 witness: the statement instantiated at an empty store. -/
theorem timeline_ordered_and_sum_preserved_witness :
    ((get_user_carbon_timeline [] 0 1 30).map Prod.fst).Pairwise (· < ·)
    ∧ ((get_user_carbon_timeline [] 0 1 30).map Prod.snd).sum
        = ((timelineRows [] 0 1 30).map (fun r => r.carbon_emissions)).sum
    ∧ (timelineRows [] 0 1 30 = [] → get_user_carbon_timeline [] 0 1 30 = []) :=
  timeline_ordered_and_sum_preserved [] 0 1 30

/-- C5: every row of the pattern analysis satisfies
`total_emissions = home_emissions + transport_emissions` with
`transport_emissions` the sum of the user's same-day transportation
emissions; a day with no transportation rows gets transport 0 and total
equal to the home emission; every output day is backed by a home-energy
row of that user (days without one never appear); and a day with home
emission 7 and transport rows 1.5 and 2.5 totals 7 + 4. -/
theorem patterns_join_total (cal : Calendar) (hdb : List HomeEnergyRow)
    (tdb : List TransportationRow) (user : Nat) :
    (∀ p, p ∈ analyze_carbon_patterns cal hdb tdb user →
      (p.total_emissions = p.home_emissions + p.transport_emissions
        ∧ p.transport_emissions = transpSum tdb user p.consumption_date
        ∧ (tdb.filter (fun t =>
              decide (t.user_id = user ∧ t.activity_date = p.consumption_date)) = []
            → p.transport_emissions = 0 ∧ p.total_emissions = p.home_emissions)
        ∧ ∃ h0 ∈ hdb, h0.user_id = user ∧ h0.consumption_date = p.consumption_date
            ∧ p.home_emissions = h0.carbon_emissions))
    ∧ (analyze_carbon_patterns cal0 [⟨1, 5, 2, 0, 0, 0, 7⟩]
        [⟨1, 5, 3/2⟩, ⟨1, 5, 5/2⟩] 1).map (fun p => p.total_emissions) = [7 + 4] := by
  constructor
  · intro p hp
    obtain ⟨r, hr, rfl⟩ := List.mem_map.1 hp
    have hrf : r ∈ hdb.filter (fun r => decide (r.user_id = user)) :=
      (mem_sortK _ r _).1 hr
    obtain ⟨hrdb, hru⟩ := List.mem_filter.1 hrf
    have hruser : r.user_id = user := of_decide_eq_true hru
    refine ⟨rfl, rfl, ?_, r, hrdb, hruser, rfl, rfl⟩
    · intro hfe
      constructor
      · show transpSum tdb user r.consumption_date = 0
        rw [transpSum, hfe]
        rfl
      · show r.carbon_emissions + transpSum tdb user r.consumption_date
            = r.carbon_emissions
        rw [transpSum, hfe]
        show r.carbon_emissions + 0 = r.carbon_emissions
        rw [add_zero]
  · with_unfolding_all decide

/-- The pattern row that the concrete C5 store produces. -/
def pRow0 : PatternRow := ⟨5, 2, 0, 0, 0, 7, 4, 11, 0, 1, 0⟩

/-- C5 witness: the per-row properties instantiated at the concrete
one-home-row, two-transport-rows store. -/
theorem patterns_join_total_witness :
    pRow0 ∈ analyze_carbon_patterns cal0
        [⟨1, 5, 2, 0, 0, 0, 7⟩] [⟨1, 5, 3/2⟩, ⟨1, 5, 5/2⟩] 1
    ∧ (pRow0.total_emissions = pRow0.home_emissions + pRow0.transport_emissions
        ∧ pRow0.transport_emissions
          = transpSum [⟨1, 5, 3/2⟩, ⟨1, 5, 5/2⟩] 1 pRow0.consumption_date
        ∧ (([⟨1, 5, 3/2⟩, ⟨1, 5, 5/2⟩] : List TransportationRow).filter (fun t =>
              decide (t.user_id = 1 ∧ t.activity_date = pRow0.consumption_date)) = []
            → pRow0.transport_emissions = 0
              ∧ pRow0.total_emissions = pRow0.home_emissions)
        ∧ ∃ h0 ∈ ([⟨1, 5, 2, 0, 0, 0, 7⟩] : List HomeEnergyRow), h0.user_id = 1
            ∧ h0.consumption_date = pRow0.consumption_date
            ∧ pRow0.home_emissions = h0.carbon_emissions) :=
  ⟨by with_unfolding_all decide,
   (patterns_join_total cal0 [⟨1, 5, 2, 0, 0, 0, 7⟩] [⟨1, 5, 3/2⟩, ⟨1, 5, 5/2⟩] 1).1
     pRow0 (by with_unfolding_all decide)⟩

/-- C8: the activity ranking is ordered descending by total carbon,
truncated to at most `top_n` entries, and each reported entry carries the
per-category total emission, occurrence count, average emission and
average quantity of its group; with category totals 10, 50, 30 the top-2
result is exactly the 50- and the 30-valued category, in that order. -/
theorem eco_heavy_ranking (da : List DailyActivityRow) (ac : List ActivityCategoryRow)
    (user : Nat) (top_n : Nat) :
    (get_eco_heavy_activities da ac user top_n).Pairwise
        (fun a b => b.total_carbon ≤ a.total_carbon)
    ∧ (get_eco_heavy_activities da ac user top_n).length ≤ top_n
    ∧ (∀ e, e ∈ get_eco_heavy_activities da ac user top_n →
        (e.total_carbon = (((ecoJoined da ac user).filter
            (fun x => decide (x.1 = e.category_name))).map (fun x => x.2.2)).sum
        ∧ e.frequency = ((ecoJoined da ac user).filter
            (fun x => decide (x.1 = e.category_name))).length
        ∧ e.avg_carbon = mean (((ecoJoined da ac user).filter
            (fun x => decide (x.1 = e.category_name))).map (fun x => x.2.2))
        ∧ e.avg_quantity = mean (((ecoJoined da ac user).filter
            (fun x => decide (x.1 = e.category_name))).map (fun x => x.2.1))))
    ∧ (get_eco_heavy_activities [⟨1, 1, 1, 10⟩, ⟨1, 2, 1, 50⟩, ⟨1, 3, 1, 30⟩]
        [⟨1, "A"⟩, ⟨2, "B"⟩, ⟨3, "C"⟩] 1 2).map
        (fun e => (e.category_name, e.total_carbon)) = [("B", 50), ("C", 30)] := by
  set j := ecoJoined da ac user with hj
  set entries := ((j.map (fun x => x.1)).dedup).map (fun n =>
    let g := j.filter (fun x => decide (x.1 = n))
    ({ category_name := n
       avg_quantity := mean (g.map (fun x => x.2.1))
       avg_carbon := mean (g.map (fun x => x.2.2))
       total_carbon := (g.map (fun x => x.2.2)).sum
       frequency := g.length } : EcoEntry)) with hentries
  have hout : get_eco_heavy_activities da ac user top_n
      = (sortK (fun e => -e.total_carbon) entries).take top_n := rfl
  refine ⟨?_, ?_, ?_, ?_⟩
  · rw [hout]
    exact ((pairwise_sortK (fun e : EcoEntry => -e.total_carbon) entries).sublist
      (List.take_sublist _ _)).imp fun h => neg_le_neg_iff.1 h
  · rw [hout]
    exact List.length_take_le _ _
  · intro e he
    rw [hout] at he
    have he2 : e ∈ sortK (fun e : EcoEntry => -e.total_carbon) entries :=
      List.mem_of_mem_take he
    obtain ⟨n, hn, rfl⟩ := List.mem_map.1 ((mem_sortK _ e _).1 he2)
    exact ⟨rfl, rfl, rfl, rfl⟩
  · with_unfolding_all decide

/-- C8 witness: the aggregate properties instantiated at the top-ranked
concrete entry. -/
theorem eco_heavy_ranking_witness :
    (⟨"B", 1, 50, 50, 1⟩ : EcoEntry) ∈ get_eco_heavy_activities
        [⟨1, 1, 1, 10⟩, ⟨1, 2, 1, 50⟩, ⟨1, 3, 1, 30⟩]
        [⟨1, "A"⟩, ⟨2, "B"⟩, ⟨3, "C"⟩] 1 2
    ∧ ((⟨"B", 1, 50, 50, 1⟩ : EcoEntry).total_carbon
        = (((ecoJoined [⟨1, 1, 1, 10⟩, ⟨1, 2, 1, 50⟩, ⟨1, 3, 1, 30⟩]
              [⟨1, "A"⟩, ⟨2, "B"⟩, ⟨3, "C"⟩] 1).filter
            (fun x => decide (x.1 = (⟨"B", 1, 50, 50, 1⟩ : EcoEntry).category_name))).map
            (fun x => x.2.2)).sum
      ∧ (⟨"B", 1, 50, 50, 1⟩ : EcoEntry).frequency
        = ((ecoJoined [⟨1, 1, 1, 10⟩, ⟨1, 2, 1, 50⟩, ⟨1, 3, 1, 30⟩]
              [⟨1, "A"⟩, ⟨2, "B"⟩, ⟨3, "C"⟩] 1).filter
            (fun x => decide (x.1 = (⟨"B", 1, 50, 50, 1⟩ : EcoEntry).category_name))).length
      ∧ (⟨"B", 1, 50, 50, 1⟩ : EcoEntry).avg_carbon
        = mean (((ecoJoined [⟨1, 1, 1, 10⟩, ⟨1, 2, 1, 50⟩, ⟨1, 3, 1, 30⟩]
              [⟨1, "A"⟩, ⟨2, "B"⟩, ⟨3, "C"⟩] 1).filter
            (fun x => decide (x.1 = (⟨"B", 1, 50, 50, 1⟩ : EcoEntry).category_name))).map
            (fun x => x.2.2))
      ∧ (⟨"B", 1, 50, 50, 1⟩ : EcoEntry).avg_quantity
        = mean (((ecoJoined [⟨1, 1, 1, 10⟩, ⟨1, 2, 1, 50⟩, ⟨1, 3, 1, 30⟩]
              [⟨1, "A"⟩, ⟨2, "B"⟩, ⟨3, "C"⟩] 1).filter
            (fun x => decide (x.1 = (⟨"B", 1, 50, 50, 1⟩ : EcoEntry).category_name))).map
            (fun x => x.2.1))) :=
  ⟨by with_unfolding_all decide,
   (eco_heavy_ranking [⟨1, 1, 1, 10⟩, ⟨1, 2, 1, 50⟩, ⟨1, 3, 1, 30⟩]
      [⟨1, "A"⟩, ⟨2, "B"⟩, ⟨3, "C"⟩] 1 2).2.2.1 ⟨"B", 1, 50, 50, 1⟩
     (by with_unfolding_all decide)⟩

/-- Shape of the suggestion list: the two conditional suggestions, in
fixed order, followed by the unconditional seasonal one. -/
theorem gen_map_category (cal : Calendar) (hdb : List HomeEnergyRow)
    (tdb : List TransportationRow) (user : Nat) :
    (generate_optimization_suggestions cal hdb tdb user).map (fun s => s.category)
      = (if gtOpt 30 (meanOpt ((analyze_carbon_patterns cal hdb tdb user).map
            (fun p => p.electricity_usage))) then ["Electricity"] else [])
        ++ (if gtOpt 2 (meanOpt ((analyze_carbon_patterns cal hdb tdb user).map
            (fun p => p.transport_emissions))) then ["Transportation"] else [])
        ++ ["Seasonal Optimization"] := by
  simp only [generate_optimization_suggestions]
  by_cases h1 : gtOpt 30 (meanOpt ((analyze_carbon_patterns cal hdb tdb user).map
      (fun p => p.electricity_usage))) <;>
    by_cases h2 : gtOpt 2 (meanOpt ((analyze_carbon_patterns cal hdb tdb user).map
      (fun p => p.transport_emissions))) <;>
    simp [h1, h2]

/-- C9: with at least one pattern row, the electricity suggestion appears
exactly when the mean electricity usage exceeds 30 and the transportation
suggestion exactly when the mean transport emission exceeds 2; mean
electricity 35 triggers, 25 does not, and mean transport 1 does not. -/
theorem suggestion_thresholds (cal : Calendar) (hdb : List HomeEnergyRow)
    (tdb : List TransportationRow) (user : Nat) :
    (analyze_carbon_patterns cal hdb tdb user ≠ [] →
      (((∃ s ∈ generate_optimization_suggestions cal hdb tdb user,
            s.category = "Electricity")
          ↔ 30 < mean ((analyze_carbon_patterns cal hdb tdb user).map
              (fun p => p.electricity_usage)))
        ∧ ((∃ s ∈ generate_optimization_suggestions cal hdb tdb user,
            s.category = "Transportation")
          ↔ 2 < mean ((analyze_carbon_patterns cal hdb tdb user).map
              (fun p => p.transport_emissions)))))
    ∧ (generate_optimization_suggestions cal0 [mkHome 1 1 35 5] [] 1).map
        (fun s => s.category) = ["Electricity", "Seasonal Optimization"]
    ∧ (generate_optimization_suggestions cal0 [mkHome 1 1 25 5] [] 1).map
        (fun s => s.category) = ["Seasonal Optimization"]
    ∧ (generate_optimization_suggestions cal0 [mkHome 1 1 0 5] [⟨1, 1, 1⟩] 1).map
        (fun s => s.category) = ["Seasonal Optimization"] := by
  refine ⟨?_, by with_unfolding_all decide, by with_unfolding_all decide,
    by with_unfolding_all decide⟩
  intro hne
  have hneE : (analyze_carbon_patterns cal hdb tdb user).map
      (fun p => p.electricity_usage) ≠ [] := by simpa using hne
  have hneT : (analyze_carbon_patterns cal hdb tdb user).map
      (fun p => p.transport_emissions) ≠ [] := by simpa using hne
  have hE := meanOpt_of_ne_nil _ hneE
  have hT := meanOpt_of_ne_nil _ hneT
  have hmm := gen_map_category cal hdb tdb user
  constructor
  · have h0 : (∃ s ∈ generate_optimization_suggestions cal hdb tdb user,
        s.category = "Electricity")
        ↔ "Electricity" ∈ (generate_optimization_suggestions cal hdb tdb user).map
            (fun s => s.category) := (List.mem_map).symm
    rw [h0, hmm, hE, hT]
    by_cases hc : 30 < mean ((analyze_carbon_patterns cal hdb tdb user).map
        (fun p => p.electricity_usage))
    · simp [gtOpt, hc]
    · by_cases hc2 : 2 < mean ((analyze_carbon_patterns cal hdb tdb user).map
          (fun p => p.transport_emissions)) <;> simp [gtOpt, hc, hc2]
  · have h0 : (∃ s ∈ generate_optimization_suggestions cal hdb tdb user,
        s.category = "Transportation")
        ↔ "Transportation" ∈ (generate_optimization_suggestions cal hdb tdb user).map
            (fun s => s.category) := (List.mem_map).symm
    rw [h0, hmm, hE, hT]
    by_cases hc : 2 < mean ((analyze_carbon_patterns cal hdb tdb user).map
        (fun p => p.transport_emissions))
    · by_cases hc2 : 30 < mean ((analyze_carbon_patterns cal hdb tdb user).map
          (fun p => p.electricity_usage)) <;> simp [gtOpt, hc, hc2]
    · by_cases hc2 : 30 < mean ((analyze_carbon_patterns cal hdb tdb user).map
          (fun p => p.electricity_usage)) <;> simp [gtOpt, hc, hc2]

/-- C9 witness: the two threshold equivalences instantiated at a store
whose single pattern row has electricity usage 35 and no transport. -/
theorem suggestion_thresholds_witness :
    ((∃ s ∈ generate_optimization_suggestions cal0 [mkHome 1 1 35 5] [] 1,
        s.category = "Electricity")
      ↔ 30 < mean ((analyze_carbon_patterns cal0 [mkHome 1 1 35 5] [] 1).map
          (fun p => p.electricity_usage)))
    ∧ ((∃ s ∈ generate_optimization_suggestions cal0 [mkHome 1 1 35 5] [] 1,
        s.category = "Transportation")
      ↔ 2 < mean ((analyze_carbon_patterns cal0 [mkHome 1 1 35 5] [] 1).map
          (fun p => p.transport_emissions))) :=
  (suggestion_thresholds cal0 [mkHome 1 1 35 5] [] 1).1 (by with_unfolding_all decide)

/-- C3: when the row-count precondition passes and the previous half is
nonempty with nonzero mean `p`, the trend result carries the recent mean
`r`, the previous mean, and `change_percent = (r - p) / p * 100`, each
rounded to two decimals, with the label `increasing` exactly when the
change percent is positive and `decreasing` otherwise; previous mean 10
and recent mean 12 give 20.00 / `increasing`, previous 10 and recent 8
give -20.00 / `decreasing`. -/
theorem trend_known_values (hdb : List HomeEnergyRow) (tdb : List TransportationRow)
    (today : Int) (user : Nat) (period_days : Nat) :
    (period_days ≤ (trendTotals hdb tdb today user period_days).length →
      (trendSplit (trendTotals hdb tdb today user period_days)).1 ≠ [] →
      mean (trendSplit (trendTotals hdb tdb today user period_days)).1 ≠ 0 →
      (calculate_carbon_trends hdb tdb today user period_days = some
          { recent_avg := FV.fin (round2
              (mean (trendSplit (trendTotals hdb tdb today user period_days)).2))
            previous_avg := FV.fin (round2
              (mean (trendSplit (trendTotals hdb tdb today user period_days)).1))
            change_percent := FV.fin (round2
              ((mean (trendSplit (trendTotals hdb tdb today user period_days)).2
                  - mean (trendSplit (trendTotals hdb tdb today user period_days)).1)
                / mean (trendSplit (trendTotals hdb tdb today user period_days)).1 * 100))
            trend := if 0 <
                (mean (trendSplit (trendTotals hdb tdb today user period_days)).2
                  - mean (trendSplit (trendTotals hdb tdb today user period_days)).1)
                / mean (trendSplit (trendTotals hdb tdb today user period_days)).1 * 100
              then "increasing" else "decreasing" }
        ∧ ((if 0 <
              (mean (trendSplit (trendTotals hdb tdb today user period_days)).2
                - mean (trendSplit (trendTotals hdb tdb today user period_days)).1)
              / mean (trendSplit (trendTotals hdb tdb today user period_days)).1 * 100
            then "increasing" else "decreasing") = "increasing"
          ↔ 0 < (mean (trendSplit (trendTotals hdb tdb today user period_days)).2
                - mean (trendSplit (trendTotals hdb tdb today user period_days)).1)
              / mean (trendSplit (trendTotals hdb tdb today user period_days)).1 * 100)
        ∧ ((if 0 <
              (mean (trendSplit (trendTotals hdb tdb today user period_days)).2
                - mean (trendSplit (trendTotals hdb tdb today user period_days)).1)
              / mean (trendSplit (trendTotals hdb tdb today user period_days)).1 * 100
            then "increasing" else "decreasing") = "decreasing"
          ↔ ¬ 0 < (mean (trendSplit (trendTotals hdb tdb today user period_days)).2
                - mean (trendSplit (trendTotals hdb tdb today user period_days)).1)
              / mean (trendSplit (trendTotals hdb tdb today user period_days)).1 * 100)))
    ∧ calculate_carbon_trends
        [mkHome 1 1 0 10, mkHome 1 2 0 10, mkHome 1 3 0 12, mkHome 1 4 0 12] [] 4 1 2
        = some ⟨FV.fin 12, FV.fin 10, FV.fin 20, "increasing"⟩
    ∧ calculate_carbon_trends
        [mkHome 1 1 0 10, mkHome 1 2 0 10, mkHome 1 3 0 8, mkHome 1 4 0 8] [] 4 1 2
        = some ⟨FV.fin 8, FV.fin 10, FV.fin (-20), "decreasing"⟩ := by
  refine ⟨?_, by with_unfolding_all decide, by with_unfolding_all decide⟩
  intro h1 h2 h3
  set totals := trendTotals hdb tdb today user period_days with htot
  have hne : totals ≠ [] := by
    intro h0
    apply h2
    rw [h0]
    rfl
  have hrec : (trendSplit totals).2 ≠ [] := by
    intro hnil
    have e1 : (trendSplit totals).2.length = totals.length - totals.length / 2 :=
      List.length_drop _ _
    rw [hnil] at e1
    have hlen : 0 < totals.length := List.length_pos.2 hne
    simp at e1
    omega
  have hcp : changePercentFV (trendSplit totals).2 (trendSplit totals).1
      = FV.fin ((mean (trendSplit totals).2 - mean (trendSplit totals).1)
          / mean (trendSplit totals).1 * 100) := by
    rw [changePercentFV, if_neg (not_or.2 ⟨h2, hrec⟩), if_neg h3]
  have hm2 : meanFV (trendSplit totals).2 = FV.fin (mean (trendSplit totals).2) := by
    rw [meanFV, if_neg hrec]
  have hm1 : meanFV (trendSplit totals).1 = FV.fin (mean (trendSplit totals).1) := by
    rw [meanFV, if_neg h2]
  have hnotlt : ¬ totals.length < period_days := Nat.not_lt.2 h1
  refine ⟨?_, ?_, ?_⟩
  · simp only [calculate_carbon_trends, ← htot]
    rw [if_neg hnotlt, hcp, hm1, hm2]
    simp [roundFV, gtZeroFV]
  · by_cases hx : 0 < (mean (trendSplit totals).2 - mean (trendSplit totals).1)
        / mean (trendSplit totals).1 * 100 <;> simp [hx]
  · by_cases hx : 0 < (mean (trendSplit totals).2 - mean (trendSplit totals).1)
        / mean (trendSplit totals).1 * 100 <;> simp [hx]

/-- C3 witness: the general statement instantiated at the store whose
halves have means 10 and 12 (four rows, period 2). -/
theorem trend_known_values_witness :
    calculate_carbon_trends
        [mkHome 1 1 0 10, mkHome 1 2 0 10, mkHome 1 3 0 12, mkHome 1 4 0 12] [] 4 1 2
      = some
        { recent_avg := FV.fin (round2 (mean (trendSplit
            (trendTotals [mkHome 1 1 0 10, mkHome 1 2 0 10, mkHome 1 3 0 12,
              mkHome 1 4 0 12] [] 4 1 2)).2))
          previous_avg := FV.fin (round2 (mean (trendSplit
            (trendTotals [mkHome 1 1 0 10, mkHome 1 2 0 10, mkHome 1 3 0 12,
              mkHome 1 4 0 12] [] 4 1 2)).1))
          change_percent := FV.fin (round2
            ((mean (trendSplit (trendTotals [mkHome 1 1 0 10, mkHome 1 2 0 10,
                  mkHome 1 3 0 12, mkHome 1 4 0 12] [] 4 1 2)).2
                - mean (trendSplit (trendTotals [mkHome 1 1 0 10, mkHome 1 2 0 10,
                  mkHome 1 3 0 12, mkHome 1 4 0 12] [] 4 1 2)).1)
              / mean (trendSplit (trendTotals [mkHome 1 1 0 10, mkHome 1 2 0 10,
                  mkHome 1 3 0 12, mkHome 1 4 0 12] [] 4 1 2)).1 * 100))
          trend := if 0 <
              (mean (trendSplit (trendTotals [mkHome 1 1 0 10, mkHome 1 2 0 10,
                  mkHome 1 3 0 12, mkHome 1 4 0 12] [] 4 1 2)).2
                - mean (trendSplit (trendTotals [mkHome 1 1 0 10, mkHome 1 2 0 10,
                  mkHome 1 3 0 12, mkHome 1 4 0 12] [] 4 1 2)).1)
              / mean (trendSplit (trendTotals [mkHome 1 1 0 10, mkHome 1 2 0 10,
                  mkHome 1 3 0 12, mkHome 1 4 0 12] [] 4 1 2)).1 * 100
            then "increasing" else "decreasing" } :=
  ((trend_known_values [mkHome 1 1 0 10, mkHome 1 2 0 10, mkHome 1 3 0 12,
      mkHome 1 4 0 12] [] 4 1 2).1 (by with_unfolding_all decide)
    (by with_unfolding_all decide) (by with_unfolding_all decide)).1

/-- C10: the suggestion list is always the conditional electricity entry,
then the conditional transportation entry, then the seasonal entry; hence
the seasonal suggestion is the last element of every result and the length
is between 1 and 3. -/
theorem suggestions_always_seasonal_last (cal : Calendar) (hdb : List HomeEnergyRow)
    (tdb : List TransportationRow) (user : Nat) :
    (generate_optimization_suggestions cal hdb tdb user).map (fun s => s.category)
      = (if gtOpt 30 (meanOpt ((analyze_carbon_patterns cal hdb tdb user).map
            (fun p => p.electricity_usage))) then ["Electricity"] else [])
        ++ (if gtOpt 2 (meanOpt ((analyze_carbon_patterns cal hdb tdb user).map
            (fun p => p.transport_emissions))) then ["Transportation"] else [])
        ++ ["Seasonal Optimization"]
    ∧ ((generate_optimization_suggestions cal hdb tdb user).map
        (fun s => s.category)).getLast? = some "Seasonal Optimization"
    ∧ 1 ≤ (generate_optimization_suggestions cal hdb tdb user).length
    ∧ (generate_optimization_suggestions cal hdb tdb user).length ≤ 3 := by
  have hl : (generate_optimization_suggestions cal hdb tdb user).length
      = ((generate_optimization_suggestions cal hdb tdb user).map
          (fun s => s.category)).length := (List.length_map _ _).symm
  refine ⟨gen_map_category cal hdb tdb user, ?_, ?_, ?_⟩
  · rw [gen_map_category cal hdb tdb user]
    by_cases h1 : gtOpt 30 (meanOpt ((analyze_carbon_patterns cal hdb tdb user).map
        (fun p => p.electricity_usage))) <;>
      by_cases h2 : gtOpt 2 (meanOpt ((analyze_carbon_patterns cal hdb tdb user).map
        (fun p => p.transport_emissions))) <;> simp [h1, h2]
  · rw [hl, gen_map_category cal hdb tdb user]
    by_cases h1 : gtOpt 30 (meanOpt ((analyze_carbon_patterns cal hdb tdb user).map
        (fun p => p.electricity_usage))) <;>
      by_cases h2 : gtOpt 2 (meanOpt ((analyze_carbon_patterns cal hdb tdb user).map
        (fun p => p.transport_emissions))) <;> simp [h1, h2]
  · rw [hl, gen_map_category cal hdb tdb user]
    by_cases h1 : gtOpt 30 (meanOpt ((analyze_carbon_patterns cal hdb tdb user).map
        (fun p => p.electricity_usage))) <;>
      by_cases h2 : gtOpt 2 (meanOpt ((analyze_carbon_patterns cal hdb tdb user).map
        (fun p => p.transport_emissions))) <;> simp [h1, h2]
